import Mathlib

/-!
Verification of the notation-parsing core of the samson chess library.

The development shallowly embeds the Rust sources:
  * `src/types.rs`   — bit-packed square / move primitives (namespace `Samson.types`);
  * `src/parser.rs`  — the UCI move parser (namespace `Samson.uciP`);
  * `src/parser/san.rs` — the SAN move parser (namespace `Samson.san`);
  * `src/parser/fen.rs` — the FEN parsers (namespace `Samson.fen`);
  * `src/parser/pgn.rs` — the PGN game parser (namespace `Samson.pgn`).

Machine integers of the Rust code (`u16`, `i8`) are modelled as `Nat`;
all values handled by the embedded functions stay far below any
overflow boundary, and theorems quantify only over the ranges the Rust
code is used on, so `Nat` arithmetic agrees with the machine arithmetic.

The Rust parsers are written with the `nom` parser-combinator library
(version 2/3 era macros).  The combinators used by the sources are
re-implemented here over `List Char` with nom's three-valued result
(`done` / `error` / `incomplete`), following the semantics of the nom
macros the source invokes (`one_of!`, `tag!`, `is_a!`, `is_not!`,
`opt!`, `complete!`, `alt_complete!`, `many0!`, `many_till!`, `ws!`,
`do_parse!`/`chain!`, `delimited!`, `preceded!`, `escaped!`).
`ws!(p)` is expanded the way nom's `sep!` rewriting does: a whitespace
eater is inserted in front of every sub-parser of `p`, and trailing
whitespace is consumed after `p` succeeds.
-/

namespace Samson

namespace types

/-- `types.rs`: `PieceType` ordinals. -/
def NO_PIECE_TYPE : Nat := 0
def PAWN : Nat := 1
def KNIGHT : Nat := 2
def BISHOP : Nat := 3
def ROOK : Nat := 4
def QUEEN : Nat := 5
def KING : Nat := 6
def PIECE_TYPE_NB : Nat := 8

/-- `types.rs`: `Color` values. -/
def WHITE : Nat := 0
def BLACK : Nat := 1
def NO_COLOR : Nat := 2

/-- `types.rs`: `File` values `FILE_A..FILE_H`, with sentinel `FILE_NB`. -/
def FILE_A : Nat := 0
def FILE_B : Nat := 1
def FILE_C : Nat := 2
def FILE_D : Nat := 3
def FILE_E : Nat := 4
def FILE_F : Nat := 5
def FILE_G : Nat := 6
def FILE_H : Nat := 7
def FILE_NB : Nat := 8

/-- `types.rs`: `Rank` values `RANK_1..RANK_8`, with sentinel `RANK_NB`. -/
def RANK_1 : Nat := 0
def RANK_2 : Nat := 1
def RANK_3 : Nat := 2
def RANK_4 : Nat := 3
def RANK_5 : Nat := 4
def RANK_6 : Nat := 5
def RANK_7 : Nat := 6
def RANK_8 : Nat := 7
def RANK_NB : Nat := 8

/-- `types.rs`: selected `Square` constants (square = rank*8 + file). -/
def SQ_A1 : Nat := 0
def SQ_E1 : Nat := 4
def SQ_H1 : Nat := 7
def SQ_E2 : Nat := 12
def SQ_A3 : Nat := 16
def SQ_C4 : Nat := 26
def SQ_E4 : Nat := 28
def SQ_C5 : Nat := 34
def SQ_D7 : Nat := 51
def SQ_E7 : Nat := 52
def SQ_H4 : Nat := 31
def SQ_E8 : Nat := 60
def SQ_H8 : Nat := 63
def SQ_NONE : Nat := 64
def SQUARE_NB : Nat := 64

/-- `types.rs`: `Piece` values `(color << 3) + piece_type`. -/
def W_PAWN : Nat := 1
def W_KNIGHT : Nat := 2
def W_BISHOP : Nat := 3
def W_ROOK : Nat := 4
def W_QUEEN : Nat := 5
def W_KING : Nat := 6
def B_PAWN : Nat := 9
def B_KNIGHT : Nat := 10
def B_BISHOP : Nat := 11
def B_ROOK : Nat := 12
def B_QUEEN : Nat := 13
def B_KING : Nat := 14

/-- `types.rs`: `Move` sentinels `MOVE_NONE = 0`, `MOVE_NULL = 65`. -/
def MOVE_NONE : Nat := 0
def MOVE_NULL : Nat := 65

/-- `types.rs`: `MoveType` flag values. -/
def NORMAL : Nat := 0
def PROMOTION : Nat := 1 <<< 14
def ENPASSANT : Nat := 2 <<< 14
def CASTLING : Nat := 3 <<< 14

/-- `types.rs`: `make_square(f, r) = (r << 3) + f`. -/
def make_square (f r : Nat) : Nat := (r <<< 3) + f

/-- `types.rs`: `file_of(s) = s & 7`. -/
def file_of (s : Nat) : Nat := s &&& 7

/-- `types.rs`: `rank_of(s) = s >> 3`. -/
def rank_of (s : Nat) : Nat := s >>> 3

/-- `types.rs`: `from_square(m) = (m >> 6) & 0x3F`. -/
def from_square (m : Nat) : Nat := (m >>> 6) &&& 0x3F

/-- `types.rs`: `to_square(m) = m & 0x3F`. -/
def to_square (m : Nat) : Nat := m &&& 0x3F

/-- `types.rs`: `make_move_simple(from, to) = (from << 6) | to`. -/
def make_move_simple (f t : Nat) : Nat := (f <<< 6) ||| t

/-- `types.rs`: `type_of_move(m) = m & (3 << 14)`. -/
def type_of_move (m : Nat) : Nat := m &&& (3 <<< 14)

/-- `types.rs`: `promotion_type(m) = ((m >> 12) & 3) + KNIGHT`. -/
def promotion_type (m : Nat) : Nat := ((m >>> 12) &&& 3) + KNIGHT

/-- `types.rs`: `make_move_with_promotion(from, to, pt) =
    PROMOTION | ((pt - KNIGHT) << 12) | (from << 6) | to`. -/
def make_move_with_promotion (f t pt : Nat) : Nat :=
  PROMOTION ||| ((pt - KNIGHT) <<< 12) ||| (f <<< 6) ||| t

/-- `types.rs`: `make_move_(from, to) = ENPASSANT | ((from << 6) | to)`
    (the en-passant move constructor). -/
def make_move_ (f t : Nat) : Nat := ENPASSANT ||| ((f <<< 6) ||| t)

/-- `types.rs`: `make_castling_move(from, to) = CASTLING | ((from << 6) | to)`. -/
def make_castling_move (f t : Nat) : Nat := CASTLING ||| ((f <<< 6) ||| t)

/-- `types.rs`: `is_move_ok(m)`: true unless source and destination agree. -/
def is_move_ok (m : Nat) : Bool := from_square m != to_square m

end types

/-- nom's three-valued parse outcome (`IResult`) over `List Char` input:
`done remaining value`, `error`, or `incomplete` (more input needed). -/
inductive PResult (α : Type) where
  | done (rest : List Char) (val : α)
  | error
  | incomplete
  deriving DecidableEq, Repr

/-- A nom parser: remaining input to outcome. -/
abbrev Parser (α : Type) : Type := List Char → PResult α

namespace nomP

/-- `map!(p, f)`. -/
def pmap (p : Parser α) (f : α → β) : Parser β := fun i =>
  match p i with
  | .done r v => .done r (f v)
  | .error => .error
  | .incomplete => .incomplete

/-- Sequencing as in `do_parse!` / `chain!`: failures propagate. -/
def pbind (p : Parser α) (f : α → Parser β) : Parser β := fun i =>
  match p i with
  | .done r v => f v r
  | .error => .error
  | .incomplete => .incomplete

/-- `one_of!(s)`: one character of `s`; `incomplete` on empty input. -/
def one_of (s : String) : Parser Char := fun i =>
  match i with
  | [] => .incomplete
  | c :: rest => if s.toList.contains c then .done rest c else .error

/-- `char!(c)`. -/
def charP (c : Char) : Parser Char := fun i =>
  match i with
  | [] => .incomplete
  | x :: rest => if x = c then .done rest x else .error

/-- `tag!(t)`: `incomplete` when the input is shorter than the tag,
otherwise the tag must be a prefix of the input. -/
def ptag (t : String) : Parser (List Char) := fun i =>
  if t.toList.length > i.length then .incomplete
  else if i.take t.toList.length = t.toList then
    .done (i.drop t.toList.length) (i.take t.toList.length)
  else .error

/-- `complete!(p)`: turns `incomplete` into `error`. -/
def pcomplete (p : Parser α) : Parser α := fun i =>
  match p i with
  | .incomplete => .error
  | r => r

/-- `opt!(p)`: `error` becomes `none` without consuming; `incomplete`
passes through (hence the sources always write `opt!(complete!(p))`). -/
def popt (p : Parser α) : Parser (Option α) := fun i =>
  match p i with
  | .done r v => .done r (some v)
  | .error => .done i none
  | .incomplete => .incomplete

/-- `alt_complete!`: first branch returning `done` wins; `error` and
`incomplete` both fall through to the next branch; `error` if none match. -/
def palt (ps : List (Parser α)) : Parser α := fun i =>
  match ps with
  | [] => .error
  | p :: rest =>
    match p i with
    | .done r v => .done r v
    | _ => palt rest i

/-- `is_not!(s)`: the longest prefix containing no character of `s`;
`error` if the first character is in `s`; the whole input when no
character of `s` occurs (in particular empty input gives an empty match). -/
def is_not (s : String) : Parser (List Char) := fun i =>
  let pre := i.takeWhile (fun c => !(s.toList.contains c))
  if i.isEmpty then .done [] []
  else if pre.isEmpty then .error
  else .done (i.drop pre.length) pre

/-- `is_a!(s)`: the longest prefix of characters of `s`; `error` if the
first character is not in `s`. -/
def is_a (s : String) : Parser (List Char) := fun i =>
  let pre := i.takeWhile (fun c => s.toList.contains c)
  if i.isEmpty then .done [] []
  else if pre.isEmpty then .error
  else .done (i.drop pre.length) pre

/-- nom's `digit`: the longest nonempty run of ASCII digits;
`incomplete` on empty input. -/
def digitP : Parser (List Char) := fun i =>
  match i with
  | [] => .incomplete
  | c :: _ =>
    if c.isDigit then
      let pre := i.takeWhile Char.isDigit
      .done (i.drop pre.length) pre
    else .error

/-- The whitespace set of `ws!` (`eat_separator!(b" \t\r\n")`). -/
def eat_ws (i : List Char) : List Char :=
  i.dropWhile (fun c => " \t\r\n".toList.contains c)

/-- `ws!(p)` for a leaf parser `p`: separator before `p` (nom's `sep!`
wrapping) and the trailing separator after `p` succeeds. -/
def ws2 (p : Parser α) : Parser α := fun i =>
  match p (eat_ws i) with
  | .done r v => .done (eat_ws r) v
  | .error => .error
  | .incomplete => .incomplete

/-- nom's `sep!` wrapping of one sub-parser: leading separator only. -/
def wsb (p : Parser α) : Parser α := fun i => p (eat_ws i)

/-- `many0!(p)` loop body: empty input succeeds with `[]`; `error` of `p`
stops the loop; `incomplete` propagates; an iteration of `p` that consumes
nothing is an error (nom's infinite-loop guard, which compares the
remaining input with the input of the iteration — for suffix-returning
parsers that is exactly the length check used here).  The recursion is
fueled so that it computes; the guard makes every iteration consume, so
the fuel `i.length + 1` supplied by `many0` never runs out. -/
def many0F (p : Parser α) : Nat → List Char → PResult (List α)
  | 0, _ => .error
  | fuel + 1, i =>
    if i.isEmpty then .done i []
    else
      match p i with
      | .error => .done i []
      | .incomplete => .incomplete
      | .done i1 o =>
        if i1.length < i.length then
          match many0F p fuel i1 with
          | .done r l => .done r (o :: l)
          | .error => .error
          | .incomplete => .incomplete
        else .error

/-- `many0!(p)`. -/
def many0 (p : Parser α) : Parser (List α) := fun i => many0F p (i.length + 1) i

/-- `many_till!(f, g)` loop body: each iteration first tries the
terminator `g` (whose success ends the loop), then one `f` element; a
failing `f` fails the whole loop; the no-consumption guard and the fuel
are as in `many0F`. -/
def many_tillF (f : Parser α) (g : Parser β) : Nat → List Char → PResult (List α × β)
  | 0, _ => .error
  | fuel + 1, i =>
    match g i with
    | .done r o => .done r ([], o)
    | _ =>
      match f i with
      | .error => .error
      | .incomplete => .incomplete
      | .done i1 o =>
        if i1.length < i.length then
          match many_tillF f g fuel i1 with
          | .done r (l, e) => .done r (o :: l, e)
          | .error => .error
          | .incomplete => .incomplete
        else .error

/-- `many_till!(f, g)`. -/
def many_till (f : Parser α) (g : Parser β) : Parser (List α × β) := fun i =>
  many_tillF f g (i.length + 1) i

end nomP

/-- The run of a nom repetition loop body: `ParseChain p i mid l` says that
successive successes of `p` lead from input `i` down to input `mid`,
producing the values `l` in order.  This is the trace of the element
parser inside `many_till!` (and `many0!`): it connects the loop's final
input position to the input the loop started from. -/
inductive ParseChain (p : Parser α) : List Char → List Char → List α → Prop where
  | nil (i : List Char) : ParseChain p i i []
  | cons {i i1 mid : List Char} {o : α} {l : List α} :
      p i = .done i1 o → ParseChain p i1 mid l → ParseChain p i mid (o :: l)

namespace san

open types nomP

/-- `san.rs`: `enum MoveOrCapture`. -/
inductive MoveOrCapture where
  | Move
  | Capture
  deriving DecidableEq, Repr

/-- `san.rs`: `enum Source` (file/rank/square stored as in `types.rs`). -/
inductive Source where
  | None
  | Rank (r : Nat)
  | File (f : Nat)
  | Square (s : Nat)
  deriving DecidableEq, Repr

/-- `san.rs`: `enum Promotion`. -/
inductive Promotion where
  | None
  | PieceType (pt : Nat)
  deriving DecidableEq, Repr

/-- `san.rs`: `enum Check`. -/
inductive Check where
  | None
  | Check
  | Checkmate
  deriving DecidableEq, Repr

/-- `san.rs`: `enum MoveAnnotation` (the name is shortened here). -/
inductive MoveAnnot where
  | None
  | Strong
  | Brilliant
  | Mistake
  | Blunder
  | Interesting
  | Dubious
  deriving DecidableEq, Repr

/-- `san.rs`: `enum Node`, the SAN move-description. -/
inductive Node where
  | Move (piece : Nat) (src : Source) (cap : MoveOrCapture) (dst : Nat)
         (promo : Promotion) (chk : Check) (ann : MoveAnnot)
  | CastleKingSide (chk : Check) (ann : MoveAnnot)
  | CastleQueenSide (chk : Check) (ann : MoveAnnot)
  | NullMove (chk : Check) (ann : MoveAnnot)
  | InvalidMove
  deriving DecidableEq, Repr

/-- `san.rs`: the `match` inside `san_piece`: only the upper-case letters
are mapped, every other accepted letter falls to `PIECE_TYPE_NB` (the arm
the source comments as unreachable). -/
def san_piece_map (c : Char) : Nat :=
  match c with
  | 'P' => PAWN
  | 'N' => KNIGHT
  | 'B' => BISHOP
  | 'R' => ROOK
  | 'Q' => QUEEN
  | 'K' => KING
  | _ => PIECE_TYPE_NB

/-- `san.rs`: `san_piece` — a piece letter of either case. -/
def san_piece : Parser Nat :=
  pmap (one_of "PNBRQKpnbrqk") san_piece_map

/-- `san.rs`: `san_file`. -/
def san_file : Parser Nat :=
  pmap (one_of "abcdefghABCDEFGH") (fun c =>
    match c with
    | 'a' | 'A' => FILE_A
    | 'b' | 'B' => FILE_B
    | 'c' | 'C' => FILE_C
    | 'd' | 'D' => FILE_D
    | 'e' | 'E' => FILE_E
    | 'f' | 'F' => FILE_F
    | 'g' | 'G' => FILE_G
    | 'h' | 'H' => FILE_H
    | _ => FILE_NB)

/-- `san.rs`: `san_rank`. -/
def san_rank : Parser Nat :=
  pmap (one_of "12345678") (fun c =>
    match c with
    | '1' => RANK_1
    | '2' => RANK_2
    | '3' => RANK_3
    | '4' => RANK_4
    | '5' => RANK_5
    | '6' => RANK_6
    | '7' => RANK_7
    | '8' => RANK_8
    | _ => RANK_NB)

/-- `san.rs`: `san_capture`. -/
def san_capture : Parser MoveOrCapture :=
  pmap (one_of "x") (fun c =>
    match c with
    | 'x' => MoveOrCapture.Capture
    | _ => MoveOrCapture.Move)

/-- `san.rs`: `san_promotion`. -/
def san_promotion : Parser Char := one_of "="

/-- `san.rs`: `san_check`. -/
def san_check : Parser Check :=
  pmap (one_of "+#") (fun c =>
    match c with
    | '+' => Check.Check
    | '#' => Check.Checkmate
    | _ => Check.None)

/-- `san.rs`: `san_move_annotation` (shortened name): the suffix
alternatives are tried longest first. -/
def san_move_annot : Parser MoveAnnot :=
  pmap (palt [ptag "!!", ptag "??", ptag "?!", ptag "!?", ptag "!", ptag "?"])
    (fun suffix =>
      match suffix with
      | ['!', '!'] => MoveAnnot.Brilliant
      | ['!'] => MoveAnnot.Strong
      | ['?', '?'] => MoveAnnot.Blunder
      | ['?'] => MoveAnnot.Mistake
      | ['!', '?'] => MoveAnnot.Interesting
      | ['?', '!'] => MoveAnnot.Dubious
      | _ => MoveAnnot.None)

/-- `san.rs`: `san_square` — a file then a rank, combined with `make_square`. -/
def san_square : Parser Nat :=
  pbind san_file (fun file => pmap san_rank (fun rank => make_square file rank))

/-- `san.rs`: `whitespace`. -/
def whitespaceP : Parser Char := one_of " \r\n\t"

/-- `san.rs`: `san_pawn_move_bare` — a square followed by whitespace. -/
def san_pawn_move_bare : Parser Node :=
  pbind (pcomplete san_square) (fun square =>
    pmap whitespaceP (fun _ =>
      Node.Move PAWN Source.None MoveOrCapture.Move square
        Promotion.None Check.None MoveAnnot.None))

/-- `san.rs`: `san_pawn_capture_bare` — file, `x`, square, whitespace. -/
def san_pawn_capture_bare : Parser Node :=
  pbind (pcomplete san_file) (fun file =>
    pbind (pcomplete san_capture) (fun capture =>
      pbind (pcomplete san_square) (fun square =>
        pmap whitespaceP (fun _ =>
          Node.Move PAWN (Source.File file) capture square
            Promotion.None Check.None MoveAnnot.None))))

/-- `san.rs`: the promotion fragment requires both the `=` marker and the
piece letter, as in `san_pawn_move`'s closure. -/
def promo_of (promo : Option Char) (piece : Option Nat) : Promotion :=
  match promo, piece with
  | some _, some pp => Promotion.PieceType pp
  | _, _ => Promotion.None

/-- `san.rs`: `san_pawn_move` — square, optional promotion, check, annotation. -/
def san_pawn_move : Parser Node :=
  pbind (pcomplete san_square) (fun square =>
    pbind (popt (pcomplete san_promotion)) (fun promo =>
      pbind (popt (pcomplete san_piece)) (fun promoPiece =>
        pbind (popt (pcomplete san_check)) (fun chk =>
          pmap (popt (pcomplete san_move_annot)) (fun ann =>
            Node.Move PAWN Source.None MoveOrCapture.Move square
              (promo_of promo promoPiece) (chk.getD Check.None)
              (ann.getD MoveAnnot.None))))))

/-- `san.rs`: `san_pawn_capture` — file, `x`, square, optional promotion,
check, annotation; the source file is the `Source`. -/
def san_pawn_capture : Parser Node :=
  pbind (pcomplete san_file) (fun file =>
    pbind (pcomplete san_capture) (fun capture =>
      pbind (pcomplete san_square) (fun square =>
        pbind (popt (pcomplete san_promotion)) (fun promo =>
          pbind (popt (pcomplete san_piece)) (fun promoPiece =>
            pbind (popt (pcomplete san_check)) (fun chk =>
              pmap (popt (pcomplete san_move_annot)) (fun ann =>
                Node.Move PAWN (Source.File file) capture square
                  (promo_of promo promoPiece) (chk.getD Check.None)
                  (ann.getD MoveAnnot.None))))))))

/-- `san.rs`: `san_piece_move_bare` — piece letter, square, whitespace. -/
def san_piece_move_bare : Parser Node :=
  pbind (pcomplete san_piece) (fun piece =>
    pbind (pcomplete san_square) (fun square =>
      pmap whitespaceP (fun _ =>
        Node.Move piece Source.None MoveOrCapture.Move square
          Promotion.None Check.None MoveAnnot.None)))

/-- `san.rs`: the `Source` selection of `san_piece_move`'s closure over the
optional file, rank and square fragments. -/
def piece_move_node (piece : Nat) (file rank square : Option Nat)
    (capture : MoveOrCapture) (chk : Check) (ann : MoveAnnot) : Node :=
  match file, rank, square with
  | some f, some r, none =>
    Node.Move piece Source.None capture (make_square f r) Promotion.None chk ann
  | none, none, some sq =>
    Node.Move piece Source.None capture sq Promotion.None chk ann
  | some f, none, some sq =>
    Node.Move piece (Source.File f) capture sq Promotion.None chk ann
  | none, some r, some sq =>
    Node.Move piece (Source.Rank r) capture sq Promotion.None chk ann
  | some f, some r, some sq =>
    Node.Move piece (Source.Square (make_square f r)) capture sq Promotion.None chk ann
  | _, _, _ => Node.InvalidMove

/-- `san.rs`: `san_piece_move` — piece letter, then optional file, rank,
capture, square, check and annotation, resolved by `piece_move_node`. -/
def san_piece_move : Parser Node :=
  pbind (pcomplete san_piece) (fun piece =>
    pbind (popt (pcomplete san_file)) (fun file =>
      pbind (popt (pcomplete san_rank)) (fun rank =>
        pbind (popt (pcomplete san_capture)) (fun capture =>
          pbind (popt (pcomplete san_square)) (fun square =>
            pbind (popt (pcomplete san_check)) (fun chk =>
              pmap (popt (pcomplete san_move_annot)) (fun ann =>
                piece_move_node piece file rank square
                  (capture.getD MoveOrCapture.Move) (chk.getD Check.None)
                  (ann.getD MoveAnnot.None))))))))

/-- `san.rs`: `san_explicit_move` — the `alt_complete!` ordering of the six
move alternatives. -/
def san_explicit_move : Parser Node :=
  palt [san_pawn_move_bare, san_piece_move_bare, san_pawn_capture_bare,
        san_pawn_move, san_piece_move, san_pawn_capture]

/-- `san.rs`: `san_null_move` — `--`, `Z0` or `z0`. -/
def san_null_move : Parser Node :=
  pbind (palt [ptag "--", ptag "Z0", ptag "z0"]) (fun _ =>
    pbind (popt (pcomplete san_check)) (fun chk =>
      pmap (popt (pcomplete san_move_annot)) (fun ann =>
        Node.NullMove (chk.getD Check.None) (ann.getD MoveAnnot.None))))

/-- `san.rs`: `san_castle_king_side` — `O-O`. -/
def san_castle_king_side : Parser Node :=
  pbind (ptag "O-O") (fun _ =>
    pbind (popt (pcomplete san_check)) (fun chk =>
      pmap (popt (pcomplete san_move_annot)) (fun ann =>
        Node.CastleKingSide (chk.getD Check.None) (ann.getD MoveAnnot.None))))

/-- `san.rs`: `san_castle_queen_side` — `O-O-O`. -/
def san_castle_queen_side : Parser Node :=
  pbind (ptag "O-O-O") (fun _ =>
    pbind (popt (pcomplete san_check)) (fun chk =>
      pmap (popt (pcomplete san_move_annot)) (fun ann =>
        Node.CastleQueenSide (chk.getD Check.None) (ann.getD MoveAnnot.None))))

/-- `san.rs`: `san_move` — explicit moves, then castling (queen side before
king side), then the null move. -/
def san_move : Parser Node :=
  palt [san_explicit_move, san_castle_queen_side, san_castle_king_side, san_null_move]

end san

namespace uciP

open types nomP

/-- `parser.rs`: `file` — a file letter of either case; `'0'` (used by the
null-move token) maps to the sentinel `FILE_NB`. -/
def file : Parser Nat :=
  pmap (one_of "abcdefghABCDEFGH0") (fun f =>
    match f with
    | 'a' | 'A' => FILE_A
    | 'b' | 'B' => FILE_B
    | 'c' | 'C' => FILE_C
    | 'd' | 'D' => FILE_D
    | 'e' | 'E' => FILE_E
    | 'f' | 'F' => FILE_F
    | 'g' | 'G' => FILE_G
    | 'h' | 'H' => FILE_H
    | '0' => FILE_NB
    | _ => FILE_NB)

/-- `parser.rs`: `rank` — a rank digit; `'0'` maps to the sentinel `RANK_NB`. -/
def rank : Parser Nat :=
  pmap (one_of "123456780") (fun r =>
    match r with
    | '1' => RANK_1
    | '2' => RANK_2
    | '3' => RANK_3
    | '4' => RANK_4
    | '5' => RANK_5
    | '6' => RANK_6
    | '7' => RANK_7
    | '8' => RANK_8
    | '0' => RANK_NB
    | _ => RANK_NB)

/-- `parser.rs`: `piece` — any piece letter of either case, wrapped in
`complete!`. -/
def piece : Parser Nat :=
  pcomplete (pmap (one_of "pnbrqkPNBRQK") (fun p =>
    match p with
    | 'p' | 'P' => PAWN
    | 'n' | 'N' => KNIGHT
    | 'b' | 'B' => BISHOP
    | 'r' | 'R' => ROOK
    | 'q' | 'Q' => QUEEN
    | 'k' | 'K' => KING
    | _ => NO_PIECE_TYPE))

/-- `parser.rs`: `square` — file then rank; a sentinel in either component
makes the square the sentinel `SQUARE_NB`. -/
def square : Parser Nat :=
  pbind file (fun f => pmap rank (fun r =>
    if f = FILE_NB ∨ r = RANK_NB then SQUARE_NB else make_square f r))

/-- `parser.rs`: `uci` — two squares and an optional promotion piece; a
sentinel square makes the whole move `MOVE_NULL`. -/
def uci : Parser Nat :=
  pbind square (fun frm => pbind square (fun t => pmap (popt piece) (fun promotion =>
    if frm = SQUARE_NB ∨ t = SQUARE_NB then MOVE_NULL
    else
      match promotion with
      | some p => make_move_with_promotion frm t p
      | none => make_move_simple frm t)))

end uciP

namespace fen

open types nomP

/-- `fen.rs`: `enum Node` (colors, files, pieces and squares stored as the
numeric values of `types.rs`). -/
inductive Node where
  | Drop (p : Nat)
  | Skip (n : Nat)
  | NextRank
  | Move (c : Nat)
  | Castle (c : Nat) (f : Nat)
  | NoCastling
  | EnPassantTargetSquare (s : Nat)
  | HalfMoveClock (n : Nat)
  | FullMoveNumber (n : Nat)
  | Error (c : Char)
  deriving DecidableEq, Repr

/-- `fen.rs`: `castling_rights` — `many0!` of one castling letter; standard
letters `KQkq`, Shredder letters `A`–`H`/`a`–`h`, or `-`. -/
def castling_rights : Parser (List Node) :=
  many0 (pmap (one_of "-KQkqABCEDFGHabcdefgh") (fun c =>
    match c with
    | 'k' => Node.Castle WHITE FILE_H
    | 'q' => Node.Castle WHITE FILE_A
    | 'a' => Node.Castle WHITE FILE_A
    | 'b' => Node.Castle WHITE FILE_B
    | 'c' => Node.Castle WHITE FILE_C
    | 'd' => Node.Castle WHITE FILE_D
    | 'e' => Node.Castle WHITE FILE_E
    | 'f' => Node.Castle WHITE FILE_F
    | 'g' => Node.Castle WHITE FILE_G
    | 'h' => Node.Castle WHITE FILE_H
    | 'K' => Node.Castle BLACK FILE_H
    | 'Q' => Node.Castle BLACK FILE_A
    | 'A' => Node.Castle BLACK FILE_A
    | 'B' => Node.Castle BLACK FILE_B
    | 'C' => Node.Castle BLACK FILE_C
    | 'D' => Node.Castle BLACK FILE_D
    | 'E' => Node.Castle BLACK FILE_E
    | 'F' => Node.Castle BLACK FILE_F
    | 'G' => Node.Castle BLACK FILE_G
    | 'H' => Node.Castle BLACK FILE_H
    | '-' => Node.NoCastling
    | _ => Node.Error c))

end fen

namespace pgn

open types nomP

/-- `pgn.rs`: `enum Tag` — recognized keys get dedicated variants, any
other key the generic `Other`; values are the borrowed text, modelled as
`List Char`. -/
inductive Tag where
  | Event (v : List Char)
  | Site (v : List Char)
  | Date (v : List Char)
  | Round (v : List Char)
  | White (v : List Char)
  | Black (v : List Char)
  | Result (v : List Char)
  | Other (k v : List Char)
  deriving DecidableEq, Repr

/-- `pgn.rs`: `enum Periods` — how many periods follow a move number. -/
inductive Periods where
  | None
  | One
  | Three
  | Other
  deriving DecidableEq, Repr

/-- `pgn.rs`: `enum Result`. -/
inductive Result where
  | WhiteWin
  | BlackWin
  | Draw
  | Other
  deriving DecidableEq, Repr

/-- `pgn.rs`: `enum Node`.  The `NumericAnnotationGlyph` newtype is the
plain number here.  The source also declares a `Variation(Vec<Node>)`
variant that no parser ever produces (variations are emitted flat as
`StartVariation`/`EndVariation`); it is omitted from this embedding. -/
inductive Node where
  | EscapeComment (v : List Char)
  | Comment (v : List Char)
  | Nag (n : Nat)
  | MoveNumber (n : Nat) (p : Periods)
  | Move (m : san.Node)
  | StartVariation
  | EndVariation
  deriving DecidableEq, Repr

/-- `pgn.rs`: `struct Game`. -/
structure Game where
  tags : List Tag
  nodes : List Node
  result : Result
  deriving DecidableEq, Repr

/-- The trailing-separator half of `ws!`: after the wrapped parser
succeeds, the following whitespace is consumed. -/
def ws_after (p : Parser α) : Parser α := fun i =>
  match p i with
  | .done r v => .done (eat_ws r) v
  | .error => .error
  | .incomplete => .incomplete

/-- nom's `escaped!(is_not!("\x5c\x22"), '\x5c', one_of!("\x22\x5c"))`
loop: chunks free of backslash/quote alternate with two-character escape
sequences; the matched text is returned verbatim (escapes included); the
loop breaks — possibly with an empty match — at a quote or at the end of
input, and a trailing bare backslash is `incomplete`.  Fueled as in
`many0F`. -/
def escapedF : Nat → List Char → PResult (List Char)
  | 0, _ => .error
  | fuel + 1, i =>
    let chunk := i.takeWhile (fun c => !(c = '\\' || c = '"'))
    if chunk.length > 0 then
      match escapedF fuel (i.drop chunk.length) with
      | .done r m => .done r (chunk ++ m)
      | .error => .error
      | .incomplete => .incomplete
    else
      match i with
      | '\\' :: c :: rest =>
        if c = '"' ∨ c = '\\' then
          match escapedF fuel rest with
          | .done r m => .done r ('\\' :: c :: m)
          | .error => .error
          | .incomplete => .incomplete
        else .error
      | ['\\'] => .incomplete
      | _ => .done i []

/-- The escaped string body of `string_token`. -/
def escaped_content : Parser (List Char) := fun i => escapedF (i.length + 1) i

/-- `pgn.rs`: `string_token` — a `"`-delimited escaped string. -/
def string_token : Parser (List Char) :=
  pbind (charP '"') (fun _ =>
    pbind escaped_content (fun v =>
      pmap (charP '"') (fun _ => v)))

/-- Digit run to number, as `str::from_utf8` + `u64::from_str` do. -/
def nat_of_digits (ds : List Char) : Nat :=
  ds.foldl (fun acc c => acc * 10 + (c.toNat - '0'.toNat)) 0

/-- `pgn.rs`: `integer_token` — `ws!(digit)` converted to a number. -/
def integer_token : Parser Nat :=
  pmap (ws2 digitP) nat_of_digits

/-- `pgn.rs`: `period_token`. -/
def period_token : Parser (List Char) := ptag "."

/-- `pgn.rs`: `escape_comment` — `%` to the end of the line. -/
def escape_comment : Parser (List Char) :=
  pbind (ptag "%") (fun _ => is_not "\n")

/-- `pgn.rs`: `nag_token` — `$` followed by an integer. -/
def nag_token : Parser Nat :=
  pbind (charP '$') (fun _ => integer_token)

/-- `pgn.rs`: `symbol_token` — a run of symbol characters. -/
def symbol_token : Parser (List Char) :=
  is_a "1234567890abcdefghijklmnopqrstuvwxyzABCDEFGHIJKLMNOPQRSTUVWXYZ#=:+_-"

/-- `pgn.rs`: the key→`Tag` mapping of `tag_pair`'s closure. -/
def tag_of (key value : List Char) : Tag :=
  if key = "Event".toList then Tag.Event value
  else if key = "Site".toList then Tag.Site value
  else if key = "Date".toList then Tag.Date value
  else if key = "Round".toList then Tag.Round value
  else if key = "White".toList then Tag.White value
  else if key = "Black".toList then Tag.Black value
  else if key = "Result".toList then Tag.Result value
  else Tag.Other key value

/-- `pgn.rs`: `tag_pair` — `ws!(do_parse!([ key value ]))`: the `sep!`
expansion of `ws!` puts a whitespace eater before each of the four tokens
and consumes trailing whitespace after the whole. -/
def tag_pair : Parser Tag :=
  ws_after (pbind (wsb (ptag "[")) (fun _ =>
    pbind (wsb symbol_token) (fun key =>
      pbind (wsb string_token) (fun value =>
        pmap (wsb (ptag "]")) (fun _ => tag_of key value)))))

/-- `pgn.rs`: `tag_list` — `ws!(many0!(tag_pair))`. -/
def tag_list : Parser (List Tag) :=
  ws_after (many0 (wsb tag_pair))

/-- `pgn.rs`: `commentary_token` — `{`-delimited text with no nesting and
no escapes, returned verbatim. -/
def commentary_token : Parser (List Char) :=
  pbind (charP '{') (fun _ =>
    pbind (is_not "\x7d") (fun v =>
      pmap (charP '}') (fun _ => v)))

/-- `pgn.rs`: `game_result` — the four result tokens, each `ws!`-wrapped. -/
def game_result : Parser Result :=
  palt [pmap (ws2 (ptag "1-0")) (fun _ => Result.WhiteWin),
        pmap (ws2 (ptag "0-1")) (fun _ => Result.BlackWin),
        pmap (ws2 (ptag "1/2-1/2")) (fun _ => Result.Draw),
        pmap (ws2 (ptag "*")) (fun _ => Result.Other)]

/-- `pgn.rs`: the period-count classification of `game_node`'s move-number
closure. -/
def periods_of (periods : Option (List (List Char))) : Periods :=
  match periods with
  | some x =>
    match x.length with
    | 1 => Periods.One
    | 3 => Periods.Three
    | 0 => Periods.None
    | _ => Periods.Other
  | none => Periods.None

/-- `pgn.rs`: `game_node` — variation markers, NAGs, comments, move
numbers, and SAN moves, in `alt_complete!` order. -/
def game_node : Parser Node :=
  palt [pmap (ws2 (ptag "(")) (fun _ => Node.StartVariation),
        pmap (ws2 (ptag ")")) (fun _ => Node.EndVariation),
        pmap (ws2 nag_token) (fun n => Node.Nag n),
        pmap (ws2 commentary_token) (fun c => Node.Comment c),
        pbind (ws_after (pcomplete (wsb integer_token))) (fun num =>
          pmap (popt (ws_after (pcomplete (many0 (wsb period_token))))) (fun periods =>
            Node.MoveNumber num (periods_of periods))),
        pmap (ws_after (pcomplete (wsb san.san_move))) (fun x => Node.Move x)]

/-- `pgn.rs`: `game_node_list_with_result` — `many_till!(game_node, game_result)`. -/
def game_node_list_with_result : Parser (List Node × Result) :=
  many_till game_node game_result

/-- `pgn.rs`: `game` — escape comments, the tag list, more escape
comments, then the node list terminated by a mandatory result. -/
def game : Parser Game :=
  pbind (many0 escape_comment) (fun _ =>
    pbind (ws2 tag_list) (fun tags =>
      pbind (many0 escape_comment) (fun _ =>
        pmap (ws2 game_node_list_with_result) (fun nwr =>
          Game.mk tags nwr.1 nwr.2))))

end pgn

end Samson

set_option maxHeartbeats 8000000 in
open Samson types in
/-- C1: the packed square and move encodings round-trip exactly: for every
file `f` and rank `r` in `[0,7]`, `file_of (make_square f r) = f` and
`rank_of (make_square f r) = r`; for every square `s` in `[0,63]`,
`make_square (file_of s) (rank_of s) = s`; `from_square` / `to_square`
recover the arguments of `make_move_simple`, `make_move_with_promotion`
(whose `promotion_type` also recovers the promotion piece for
Knight/Bishop/Rook/Queen), the en-passant constructor `make_move_` and the
castling constructor `make_castling_move`, and `type_of_move` returns the
move kind each constructor set. -/
theorem c1_square_move_roundtrip :
    (∀ f r : Fin 8,
      file_of (make_square f.val r.val) = f.val ∧
      rank_of (make_square f.val r.val) = r.val) ∧
    (∀ s : Fin 64, make_square (file_of s.val) (rank_of s.val) = s.val) ∧
    (∀ a b : Fin 64,
      from_square (make_move_simple a.val b.val) = a.val ∧
      to_square (make_move_simple a.val b.val) = b.val ∧
      type_of_move (make_move_simple a.val b.val) = NORMAL) ∧
    (∀ a b : Fin 64, ∀ p : Fin 4,
      from_square (make_move_with_promotion a.val b.val (p.val + KNIGHT)) = a.val ∧
      to_square (make_move_with_promotion a.val b.val (p.val + KNIGHT)) = b.val ∧
      promotion_type (make_move_with_promotion a.val b.val (p.val + KNIGHT)) = p.val + KNIGHT ∧
      type_of_move (make_move_with_promotion a.val b.val (p.val + KNIGHT)) = PROMOTION) ∧
    (∀ a b : Fin 64,
      from_square (make_move_ a.val b.val) = a.val ∧
      to_square (make_move_ a.val b.val) = b.val ∧
      type_of_move (make_move_ a.val b.val) = ENPASSANT) ∧
    (∀ a b : Fin 64,
      from_square (make_castling_move a.val b.val) = a.val ∧
      to_square (make_castling_move a.val b.val) = b.val ∧
      type_of_move (make_castling_move a.val b.val) = CASTLING) := by
  refine ⟨by decide, by decide, by decide, by decide, by decide, by decide⟩

open Samson types san nomP in
/-- C2: the SAN parser chooses the `Source` of a piece move from the
optional file, rank and square fragments exactly as specified — the
selection closure maps (file, rank, no square) to destination (file,rank)
with `Source.None`, a lone square to `Source.None`, file+square to
`Source.File`, rank+square to `Source.Rank`, file+rank+square to
`Source.Square (make_square file rank)`, and every uncovered combination
to `InvalidMove` — and `san_move` parses `"e4"`, `"Nbd7"`, `"R1a3"` and
`"Qh4xe1"` to the stated move-descriptions. -/
theorem c2_san_source_selection :
    (∀ pt c chk ann, ∀ f r sq : Nat,
      piece_move_node pt (some f) (some r) none c chk ann =
        Node.Move pt Source.None c (make_square f r) Promotion.None chk ann ∧
      piece_move_node pt none none (some sq) c chk ann =
        Node.Move pt Source.None c sq Promotion.None chk ann ∧
      piece_move_node pt (some f) none (some sq) c chk ann =
        Node.Move pt (Source.File f) c sq Promotion.None chk ann ∧
      piece_move_node pt none (some r) (some sq) c chk ann =
        Node.Move pt (Source.Rank r) c sq Promotion.None chk ann ∧
      piece_move_node pt (some f) (some r) (some sq) c chk ann =
        Node.Move pt (Source.Square (make_square f r)) c sq Promotion.None chk ann ∧
      piece_move_node pt none (some r) none c chk ann = Node.InvalidMove ∧
      piece_move_node pt (some f) none none c chk ann = Node.InvalidMove ∧
      piece_move_node pt none none none c chk ann = Node.InvalidMove) ∧
    san_move "e4".toList =
      .done [] (Node.Move PAWN Source.None MoveOrCapture.Move SQ_E4
        Promotion.None Check.None MoveAnnot.None) ∧
    san_move "Nbd7".toList =
      .done [] (Node.Move KNIGHT (Source.File FILE_B) MoveOrCapture.Move SQ_D7
        Promotion.None Check.None MoveAnnot.None) ∧
    san_move "R1a3".toList =
      .done [] (Node.Move ROOK (Source.Rank RANK_1) MoveOrCapture.Move SQ_A3
        Promotion.None Check.None MoveAnnot.None) ∧
    san_move "Qh4xe1".toList =
      .done [] (Node.Move QUEEN (Source.Square SQ_H4) MoveOrCapture.Capture SQ_E1
        Promotion.None Check.None MoveAnnot.None) ∧
    san_move "N3".toList = .done [] Node.InvalidMove := by
  refine ⟨fun pt c chk ann f r sq => ?_, by decide, by decide, by decide, by decide, by decide⟩
  exact ⟨rfl, rfl, rfl, rfl, rfl, rfl, rfl, rfl⟩

open Samson types san nomP in
/-- C5 counterexample: the claim states `san_move` never returns a
promotion target outside {Knight, Bishop, Rook, Queen}; yet the token
`"e8=K"` parses to a pawn move promoting to King. -/
theorem c5_promotion_counterexample :
    san_move "e8=K".toList =
      .done [] (Node.Move PAWN Source.None MoveOrCapture.Move SQ_E8
        (Promotion.PieceType KING) Check.None MoveAnnot.None) ∧
    KING ∉ [KNIGHT, BISHOP, ROOK, QUEEN] := by
  exact ⟨by decide, by decide⟩

open Samson types san nomP in
/-- C5 (amended): the promotion fragment is an optional `=` followed by any
letter of `PNBRQKpnbrqk`; the upper-case letters map to their piece types —
so King and Pawn are accepted promotion targets — and the lower-case
letters map to the sentinel `PIECE_TYPE_NB`; `san_piece` can only produce
values in {PAWN, KNIGHT, BISHOP, ROOK, QUEEN, KING, PIECE_TYPE_NB}. -/
theorem c5_promotion_amended :
    san_move "e8=Q".toList =
      .done [] (Node.Move PAWN Source.None MoveOrCapture.Move SQ_E8
        (Promotion.PieceType QUEEN) Check.None MoveAnnot.None) ∧
    san_move "e8=K".toList =
      .done [] (Node.Move PAWN Source.None MoveOrCapture.Move SQ_E8
        (Promotion.PieceType KING) Check.None MoveAnnot.None) ∧
    san_move "e8=q".toList =
      .done [] (Node.Move PAWN Source.None MoveOrCapture.Move SQ_E8
        (Promotion.PieceType PIECE_TYPE_NB) Check.None MoveAnnot.None) ∧
    (∀ i r v, san_piece i = PResult.done r v →
      v ∈ [PAWN, KNIGHT, BISHOP, ROOK, QUEEN, KING, PIECE_TYPE_NB]) := by
  have key : ∀ c : Char, san_piece_map c ∈
      [PAWN, KNIGHT, BISHOP, ROOK, QUEEN, KING, PIECE_TYPE_NB] := by
    intro c
    unfold san_piece_map
    split <;> decide
  refine ⟨by decide, by decide, by decide, ?_⟩
  intro i r v h
  match i with
  | [] => simp [san_piece, pmap, one_of] at h
  | c :: rest =>
    simp only [san_piece, pmap, one_of] at h
    by_cases hc : ("PNBRQKpnbrqk".toList).contains c
    · rw [if_pos hc] at h
      injection h with h1 h2
      subst h2
      exact key c
    · rw [if_neg hc] at h
      cases h

/-- Witness for C5 (amended): the universally quantified conjunct applied
to the concrete input `"K"`, whose parse returns the King piece type. -/
theorem c5_promotion_amended_witness :
    Samson.types.KING ∈ [Samson.types.PAWN, Samson.types.KNIGHT,
      Samson.types.BISHOP, Samson.types.ROOK, Samson.types.QUEEN,
      Samson.types.KING, Samson.types.PIECE_TYPE_NB] :=
  c5_promotion_amended.2.2.2 "K".toList [] Samson.types.KING (by decide)

open Samson types san nomP in
/-- C10 (code bug): the whitespace dependence is real — `"bxc4 "` parses
as the pawn capture with source file b — but for `"bxc4"` at end of input
the piece-move alternative wins with `san_piece` mapping the lower-case
`'b'` through its supposedly unreachable catch-all arm, so the code
returns piece type `PIECE_TYPE_NB` (8) where the claim (and the evident
intent of the `one_of!` set) says Bishop. -/
theorem c10_bare_capture_whitespace :
    san_move "bxc4 ".toList =
      .done [] (Node.Move PAWN (Source.File FILE_B) MoveOrCapture.Capture SQ_C4
        Promotion.None Check.None MoveAnnot.None) ∧
    san_move "bxc4".toList =
      .done [] (Node.Move PIECE_TYPE_NB Source.None MoveOrCapture.Capture SQ_C4
        Promotion.None Check.None MoveAnnot.None) ∧
    PIECE_TYPE_NB ≠ BISHOP := by
  exact ⟨by decide, by decide, by decide⟩

open Samson types uciP in
/-- C6 counterexample: the claim states that an out-of-range promotion
piece letter such as in `"e7e8k"` yields a parser failure; yet the UCI
parser accepts the letter `k` and returns a packed promotion move. -/
theorem c6_uci_counterexample :
    uci "e7e8k".toList =
      .done [] (make_move_with_promotion SQ_E7 SQ_E8 KING) := by
  decide

open Samson types uciP in
/-- C6 (amended): the UCI parser returns `MOVE_NULL` for the literal token
`"0000"` (and whenever a square component uses the sentinel digit `0`,
e.g. `"a0e4"`), returns the packed move for well-formed tokens such as
`"e2e4"` with either letter case for the file, accepts any promotion
letter of `pnbrqkPNBRQK` (so `"e7e8k"` parses to a promotion move to King
rather than failing), and fails only when a character falls outside the
accepted character classes, e.g. the malformed square of `"i2e4"`. -/
theorem c6_uci_amended :
    uci "0000".toList = .done [] MOVE_NULL ∧
    uci "e2e4".toList = .done [] (make_move_simple SQ_E2 SQ_E4) ∧
    uci "E2e4".toList = .done [] (make_move_simple SQ_E2 SQ_E4) ∧
    uci "e7e8k".toList = .done [] (make_move_with_promotion SQ_E7 SQ_E8 KING) ∧
    uci "a0e4".toList = .done [] MOVE_NULL ∧
    uci "i2e4".toList = .error := by
  exact ⟨by decide, by decide, by decide, by decide, by decide, by decide⟩

open Samson types fen in
/-- C7: the FEN castling-rights parser maps the standard notation and the
Shredder notation to the same rights: `"KQkq"` and `"HAha"` parse to the
same four-element token list — covering both colors and both board sides
(file h = king side, file a = queen side) in one fixed order — and `"-"`
parses to the `NoCastling` token. -/
theorem c7_castling_rights :
    castling_rights "KQkq".toList =
      .done [] [Node.Castle BLACK FILE_H, Node.Castle BLACK FILE_A,
                Node.Castle WHITE FILE_H, Node.Castle WHITE FILE_A] ∧
    castling_rights "HAha".toList = castling_rights "KQkq".toList ∧
    castling_rights "-".toList = .done [] [Node.NoCastling] := by
  exact ⟨by decide, by decide, by decide⟩

open Samson types in
/-- C3: `is_move_ok m` is true exactly when `from_square m ≠ to_square m`,
and both sentinels decode to equal source and destination squares under the
6+6+2+2 layout (`MOVE_NONE = 0` to squares 0/0, `MOVE_NULL = 65` to squares
1/1), so `is_move_ok` is false on both. -/
theorem c3_is_move_ok (m : Nat) (_hm : m < 65536) :
    (is_move_ok m = true ↔ from_square m ≠ to_square m) ∧
    from_square MOVE_NONE = 0 ∧ to_square MOVE_NONE = 0 ∧
    from_square MOVE_NULL = 1 ∧ to_square MOVE_NULL = 1 ∧
    is_move_ok MOVE_NONE = false ∧ is_move_ok MOVE_NULL = false := by
  refine ⟨?_, by decide, by decide, by decide, by decide, by decide, by decide⟩
  simp [is_move_ok, bne_iff_ne]

set_option maxRecDepth 100000 in
set_option maxHeartbeats 16000000 in
open Samson types nomP pgn in
/-- C4: for the end-to-end PGN scenario input (seven mandatory tags plus
`Annotator`, `PlyCount`, `SourceDate`, a leading multi-line brace comment,
movetext `1. e4 c5`, a trailing comment, and result `*`), the game parser
returns a `Game` whose first seven tags are the mandatory tags in input
order with values verbatim (extra keys mapped to the generic form), whose
nodes are the leading comment verbatim, `MoveNumber 1 One`, the e4 and c5
move-descriptions, and the trailing comment, and whose result is `Other`. -/
theorem c4_pgn_end_to_end :
    game (String.toList "% BOOKTITLE = The Killer Sicilian: Fighting 1 e4 with the Kalashnikov\n[Event \"?\"]\n[Site \"?\"]\n[Date \"????.??.??\"]\n[Round \"?\"]\n[White \"About this Publication\"]\n[Black \"?\"]\n[Result \"*\"]\n[Annotator \"Tony Rotella\"]\n[PlyCount \"2\"]\n[SourceDate \"2015.03.02\"]\n\n% This should be ignored for now\n\n\x7bAre you searching for a new weapon against 1 e4? Look no further\x7d\n1. e4 c5 \x7b. Tony Rotella is an experienced correspondence player, teacher,\nanalyst and openings theoretician, from Ohio, USA.\x7d *\n") =
    .done [] (Game.mk
      [Tag.Event "?".toList, Tag.Site "?".toList, Tag.Date "????.??.??".toList,
       Tag.Round "?".toList, Tag.White "About this Publication".toList,
       Tag.Black "?".toList, Tag.Result "*".toList,
       Tag.Other "Annotator".toList "Tony Rotella".toList,
       Tag.Other "PlyCount".toList "2".toList,
       Tag.Other "SourceDate".toList "2015.03.02".toList]
      [Node.Comment (String.toList "Are you searching for a new weapon against 1 e4? Look no further"),
       Node.MoveNumber 1 Periods.One,
       Node.Move (san.Node.Move PAWN san.Source.None san.MoveOrCapture.Move SQ_E4
         san.Promotion.None san.Check.None san.MoveAnnot.None),
       Node.Move (san.Node.Move PAWN san.Source.None san.MoveOrCapture.Move SQ_C5
         san.Promotion.None san.Check.None san.MoveAnnot.None),
       Node.Comment (String.toList ". Tony Rotella is an experienced correspondence player, teacher,\nanalyst and openings theoretician, from Ohio, USA.")]
      Result.Other) := by
  decide

set_option maxRecDepth 10000 in
open Samson types nomP pgn san in
/-- C9: a malformed SAN token inside otherwise well-formed movetext
degrades to an `InvalidMove` node instead of aborting the enclosing game:
`"N3"` parses to a successful `InvalidMove` result (not a parser error),
and the game `"1. e4 N3 c5 *"` still parses, keeping the move number, the
e4 and c5 moves, and the `InvalidMove` node in sequence. -/
theorem c9_invalid_san_degrades :
    san_move "N3".toList = .done [] san.Node.InvalidMove ∧
    game "1. e4 N3 c5 *".toList =
      .done [] (Game.mk []
        [pgn.Node.MoveNumber 1 Periods.One,
         pgn.Node.Move (san.Node.Move PAWN Source.None MoveOrCapture.Move SQ_E4
           Promotion.None Check.None MoveAnnot.None),
         pgn.Node.Move san.Node.InvalidMove,
         pgn.Node.Move (san.Node.Move PAWN Source.None MoveOrCapture.Move SQ_C5
           Promotion.None Check.None MoveAnnot.None)]
        Result.Other) := by
  exact ⟨by decide, by decide⟩

namespace Samson

/-- Inversion for `pbind`: success factors through both parsers. -/
theorem pbind_done_inv {α β : Type} {p : Parser α} {f : α → Parser β}
    {i r : List Char} {v : β} (h : nomP.pbind p f i = .done r v) :
    ∃ i1 a, p i = .done i1 a ∧ f a i1 = .done r v := by
  unfold nomP.pbind at h
  cases hp : p i with
  | done i1 a => rw [hp] at h; exact ⟨i1, a, rfl, h⟩
  | error => rw [hp] at h; cases h
  | incomplete => rw [hp] at h; cases h

/-- Inversion for `pmap`: success factors through the inner parser. -/
theorem pmap_done_inv {α β : Type} {p : Parser α} {f : α → β}
    {i r : List Char} {v : β} (h : nomP.pmap p f i = .done r v) :
    ∃ a, p i = .done r a ∧ v = f a := by
  unfold nomP.pmap at h
  cases hp : p i with
  | done i1 a =>
    rw [hp] at h
    injection h with h1 h2
    exact ⟨a, by rw [h1], h2.symm⟩
  | error => rw [hp] at h; cases h
  | incomplete => rw [hp] at h; cases h

/-- Inversion for `ws2`: success runs the wrapped parser after the leading
separator, and the final rest is the trailing separator eat. -/
theorem ws2_done_inv {α : Type} {p : Parser α} {i r : List Char} {v : α}
    (h : nomP.ws2 p i = .done r v) :
    ∃ r0, p (nomP.eat_ws i) = .done r0 v ∧ r = nomP.eat_ws r0 := by
  unfold nomP.ws2 at h
  cases hp : p (nomP.eat_ws i) with
  | done r0 v0 =>
    rw [hp] at h
    injection h with h1 h2
    exact ⟨r0, by rw [h2], h1.symm⟩
  | error => rw [hp] at h; cases h
  | incomplete => rw [hp] at h; cases h

/-- Inversion for `ptag`: success means the tag is the literal prefix of
the input. -/
theorem ptag_done_inv {t : String} {i r : List Char} {v : List Char}
    (h : nomP.ptag t i = .done r v) :
    i.take t.toList.length = t.toList := by
  unfold nomP.ptag at h
  split at h
  · cases h
  · split at h
    · assumption
    · cases h

/-- A successful `many_tillF` run is a chain of element-parser successes
leading from the loop's input down to an intermediate input on which the
terminator parser succeeded, producing exactly the loop's element list,
final rest and terminator value. -/
theorem many_tillF_done_chain {α β : Type} {f : Parser α} {g : Parser β} :
    ∀ (fuel : Nat) (i r : List Char) (l : List α) (e : β),
      nomP.many_tillF f g fuel i = .done r (l, e) →
      ∃ mid, ParseChain f i mid l ∧ g mid = .done r e := by
  intro fuel
  induction fuel with
  | zero => intro i r l e h; cases h
  | succ fuel ih =>
    intro i r l e h
    unfold nomP.many_tillF at h
    split at h
    · rename_i r1 o hg
      injection h with h1 h2
      injection h2 with h3 h4
      subst h3
      exact ⟨i, ParseChain.nil i, by rw [hg, h1, h4]⟩
    · split at h
      · exact PResult.noConfusion h
      · exact PResult.noConfusion h
      · rename_i i1 o hf
        split at h
        · split at h
          · rename_i hlen r2 l2 e2 hrec
            injection h with h1 h2
            injection h2 with h3 h4
            subst h1; subst h4; subst h3
            obtain ⟨mid, hchain, hgm⟩ := ih i1 _ l2 _ hrec
            exact ⟨mid, ParseChain.cons hf hchain, hgm⟩
          · exact PResult.noConfusion h
          · exact PResult.noConfusion h
        · exact PResult.noConfusion h

/-- A successful `game_result` consumed (after leading whitespace) one of
the four literal result tokens matching the returned `Result`. -/
theorem game_result_token_shape {mid rest2 : List Char} {res : pgn.Result}
    (h : pgn.game_result mid = .done rest2 res) :
    ((nomP.eat_ws mid).take 3 = "1-0".toList ∧ res = pgn.Result.WhiteWin) ∨
    ((nomP.eat_ws mid).take 3 = "0-1".toList ∧ res = pgn.Result.BlackWin) ∨
    ((nomP.eat_ws mid).take 7 = "1/2-1/2".toList ∧ res = pgn.Result.Draw) ∨
    ((nomP.eat_ws mid).take 1 = "*".toList ∧ res = pgn.Result.Other) := by
  unfold pgn.game_result at h
  simp only [nomP.palt] at h
  split at h
  · rename_i r1 v1 h1
    injection h with hr hv
    obtain ⟨a, ha, hva⟩ := pmap_done_inv h1
    obtain ⟨r0, ht, -⟩ := ws2_done_inv ha
    exact Or.inl ⟨ptag_done_inv ht, by rw [← hv, hva]⟩
  · split at h
    · rename_i r1 v1 h1
      injection h with hr hv
      obtain ⟨a, ha, hva⟩ := pmap_done_inv h1
      obtain ⟨r0, ht, -⟩ := ws2_done_inv ha
      exact Or.inr (Or.inl ⟨ptag_done_inv ht, by rw [← hv, hva]⟩)
    · split at h
      · rename_i r1 v1 h1
        injection h with hr hv
        obtain ⟨a, ha, hva⟩ := pmap_done_inv h1
        obtain ⟨r0, ht, -⟩ := ws2_done_inv ha
        exact Or.inr (Or.inr (Or.inl ⟨ptag_done_inv ht, by rw [← hv, hva]⟩))
      · split at h
        · rename_i r1 v1 h1
          injection h with hr hv
          obtain ⟨a, ha, hva⟩ := pmap_done_inv h1
          obtain ⟨r0, ht, -⟩ := ws2_done_inv ha
          exact Or.inr (Or.inr (Or.inr ⟨ptag_done_inv ht, by rw [← hv, hva]⟩))
        · exact PResult.noConfusion h

end Samson

open Samson nomP pgn in
/-- C8: the PGN game result is not optional: whenever the game parser
succeeds on a buffer, the buffer factors exactly as the grammar states —
leading escape comments, the tag list producing the game's tags, more
escape comments, then a chain of successive `game_node` successes
producing precisely the game's node sequence and ending at the input
position `mid` where `game_result` succeeds with the game's result, the
parse's remaining input being what that `game_result` left (after
trailing whitespace); `game_result` itself succeeds only when one of the
four literal result tokens follows the leading whitespace; and a buffer
whose movetext lacks a result token (for example `"1. e4 c5"`) makes the
whole game parse fail with no partial `Game`. -/
theorem c8_pgn_result_required :
    (∀ (i rest : List Char) (g : Game), game i = .done rest g →
      ∃ (le1 le2 : List (List Char)) (i1 i2 i3 mid rest0 : List Char),
        many0 escape_comment i = .done i1 le1 ∧
        ws2 tag_list i1 = .done i2 g.tags ∧
        many0 escape_comment i2 = .done i3 le2 ∧
        Samson.ParseChain game_node (eat_ws i3) mid g.nodes ∧
        game_result mid = .done rest0 g.result ∧
        rest = eat_ws rest0) ∧
    (∀ (mid rest2 : List Char) (res : Result), game_result mid = .done rest2 res →
      ((eat_ws mid).take 3 = "1-0".toList ∧ res = Result.WhiteWin) ∨
      ((eat_ws mid).take 3 = "0-1".toList ∧ res = Result.BlackWin) ∨
      ((eat_ws mid).take 7 = "1/2-1/2".toList ∧ res = Result.Draw) ∨
      ((eat_ws mid).take 1 = "*".toList ∧ res = Result.Other)) ∧
    game "1. e4 c5".toList = .error := by
  refine ⟨?_, fun mid rest2 res h => Samson.game_result_token_shape h, by decide⟩
  intro i rest g h
  unfold game at h
  obtain ⟨i1, le1, h1, h⟩ := Samson.pbind_done_inv h
  obtain ⟨i2, tags, h2, h⟩ := Samson.pbind_done_inv h
  obtain ⟨i3, le2, h3, h⟩ := Samson.pbind_done_inv h
  obtain ⟨nwr, hws, hg⟩ := Samson.pmap_done_inv h
  obtain ⟨r0, hmt, hrest⟩ := Samson.ws2_done_inv hws
  obtain ⟨l0, e0⟩ := nwr
  have htags : g.tags = tags := by rw [hg]
  have hnodes : g.nodes = l0 := by rw [hg]
  have hres : g.result = e0 := by rw [hg]
  obtain ⟨mid, hchain, hgr⟩ :=
    Samson.many_tillF_done_chain ((eat_ws i3).length + 1) (eat_ws i3) r0 l0 e0 hmt
  refine ⟨le1, le2, i1, i2, i3, mid, r0, h1, ?_, h3, ?_, ?_, hrest⟩
  · rw [htags]; exact h2
  · rw [hnodes]; exact hchain
  · rw [hres]; exact hgr

open Samson nomP pgn in
/-- Witness for C8: the universal conjuncts applied at the concrete game
`"1. e4 c5 *"`, whose parse succeeds with tags `[]`, the three movetext
nodes, and result `Other`. -/
theorem c8_pgn_result_required_witness :
    ∃ (le1 le2 : List (List Char)) (i1 i2 i3 mid rest0 : List Char),
      many0 escape_comment "1. e4 c5 *".toList = .done i1 le1 ∧
      ws2 tag_list i1 = .done i2 [] ∧
      many0 escape_comment i2 = .done i3 le2 ∧
      Samson.ParseChain game_node (eat_ws i3) mid
        [Node.MoveNumber 1 Periods.One,
         Node.Move (Samson.san.Node.Move Samson.types.PAWN Samson.san.Source.None
           Samson.san.MoveOrCapture.Move Samson.types.SQ_E4 Samson.san.Promotion.None
           Samson.san.Check.None Samson.san.MoveAnnot.None),
         Node.Move (Samson.san.Node.Move Samson.types.PAWN Samson.san.Source.None
           Samson.san.MoveOrCapture.Move Samson.types.SQ_C5 Samson.san.Promotion.None
           Samson.san.Check.None Samson.san.MoveAnnot.None)] ∧
      game_result mid = .done rest0 Result.Other ∧
      ([] : List Char) = eat_ws rest0 :=
  c8_pgn_result_required.1 "1. e4 c5 *".toList []
    (Game.mk []
      [Node.MoveNumber 1 Periods.One,
       Node.Move (Samson.san.Node.Move Samson.types.PAWN Samson.san.Source.None
         Samson.san.MoveOrCapture.Move Samson.types.SQ_E4 Samson.san.Promotion.None
         Samson.san.Check.None Samson.san.MoveAnnot.None),
       Node.Move (Samson.san.Node.Move Samson.types.PAWN Samson.san.Source.None
         Samson.san.MoveOrCapture.Move Samson.types.SQ_C5 Samson.san.Promotion.None
         Samson.san.Check.None Samson.san.MoveAnnot.None)]
      Result.Other)
    (by decide)

/-- Witness for C3 at the concrete move `make_move_simple 12 28` (e2e4). -/
theorem c3_is_move_ok_witness :
    (Samson.types.is_move_ok 796 = true ↔
      Samson.types.from_square 796 ≠ Samson.types.to_square 796) ∧
    Samson.types.from_square Samson.types.MOVE_NONE = 0 ∧
    Samson.types.to_square Samson.types.MOVE_NONE = 0 ∧
    Samson.types.from_square Samson.types.MOVE_NULL = 1 ∧
    Samson.types.to_square Samson.types.MOVE_NULL = 1 ∧
    Samson.types.is_move_ok Samson.types.MOVE_NONE = false ∧
    Samson.types.is_move_ok Samson.types.MOVE_NULL = false :=
  c3_is_move_ok 796 (by decide)
